import Mathlib

/-!
Verification of the witnet-rust `docker/python-tester` integration-test
harness (`result.py`, `testlib.py`) against its natural-language
specification.  The Python code is shallowly embedded: the `Result` class
becomes the inductive `PResult`, Python values flowing through the harness
become the inductive `PyVal`, side-effecting steps are modelled with
explicit effect traces / state passing, and Python exceptions are modelled
with `Except PyExn`.
-/

set_option autoImplicit false

namespace WitnetTester

/-! ## result.py: the two-variant Result type -/

/-- Embedding of the `Result` class of `result.py`: `Ok(value)` | `Err(error)`. -/
inductive PResult (α : Type) (ε : Type) where
  | ok : α → PResult α ε
  | err : ε → PResult α ε
  deriving DecidableEq, Repr

namespace PResult

variable {α β ε ε' : Type}

/-- `Result.and_then`: `b_function(self.value) if isinstance(self, Ok) else self`. -/
def andThen (r : PResult α ε) (f : α → PResult β ε) : PResult β ε :=
  match r with
  | .ok v => f v
  | .err e => .err e

/-- `Result.or_else`: `self if isinstance(self, Ok) else b_function(self.error)`. -/
def orElse (r : PResult α ε) (f : ε → PResult α ε) : PResult α ε :=
  match r with
  | .ok v => .ok v
  | .err e => f e

/-- `Result.map`: `Ok(map_function(self.value)) if isinstance(self, Ok) else self`. -/
def map (r : PResult α ε) (f : α → β) : PResult β ε :=
  match r with
  | .ok v => .ok (f v)
  | .err e => .err e

/-- `Result.map_error`. -/
def mapError (r : PResult α ε) (f : ε → ε') : PResult α ε' :=
  match r with
  | .ok v => .ok v
  | .err e => .err (f e)

/-- `Result.get_or`: `self.value if isinstance(self, Ok) else default_function(self)`;
the default function receives the whole `Err` result, modelled here by its error. -/
def getOr (r : PResult α ε) (f : ε → α) : α :=
  match r with
  | .ok v => v
  | .err e => f e

/-- Whether the result is the `Ok` variant. -/
def isOk (r : PResult α ε) : Bool :=
  match r with
  | .ok _ => true
  | .err _ => false

/-- Whether the result is the `Err` variant. -/
def isErr (r : PResult α ε) : Bool :=
  match r with
  | .ok _ => false
  | .err _ => true

end PResult

/-! ## Python values

The harness threads decoded JSON payloads (dicts, lists, strings, ints,
bools, `None`) between steps.  `PyVal` models those values; `pyTruthy`
models Python truthiness (`if val:`), and `pyEq` models Python `==`
(where `True == 1` and `False == 0` hold across bool/int). -/

/-- A Python/JSON value as used by the harness. -/
inductive PyVal where
  | none : PyVal
  | bool : Bool → PyVal
  | int : Int → PyVal
  | str : String → PyVal
  | list : List PyVal → PyVal
  | dict : List (String × PyVal) → PyVal

namespace PyVal

/-- Python truthiness of a value (`bool(v)`). -/
def pyTruthy : PyVal → Bool
  | .none => false
  | .bool b => b
  | .int n => n ≠ 0
  | .str s => s ≠ ""
  | .list xs => !xs.isEmpty
  | .dict kvs => !kvs.isEmpty

/-- Python `==` on harness values.  Booleans compare equal to the
integers 0/1 as in Python; containers compare pointwise. -/
def pyEq : PyVal → PyVal → Bool
  | .none, .none => true
  | .bool b, .bool c => b = c
  | .bool b, .int n => (if b then (1 : Int) else 0) = n
  | .int n, .bool b => n = (if b then (1 : Int) else 0)
  | .int n, .int m => n = m
  | .str s, .str t => s = t
  | .list xs, .list ys => pyEqList xs ys
  | .dict kvs, .dict lvs => pyEqDict kvs lvs
  | _, _ => false
where
  /-- Pointwise `==` on lists. -/
  pyEqList : List PyVal → List PyVal → Bool
    | [], [] => true
    | x :: xs, y :: ys => pyEq x y && pyEqList xs ys
    | _, _ => false
  /-- `==` on dicts; the harness only compares dicts decoded from JSON in
  key order, so pointwise comparison of the entry lists is faithful here. -/
  pyEqDict : List (String × PyVal) → List (String × PyVal) → Bool
    | [], [] => true
    | (k, x) :: xs, (l, y) :: ys => k = l && pyEq x y && pyEqDict xs ys
    | _, _ => false

/-- Dict lookup as used by `d.get(key)` / `key in d`: first matching entry. -/
def lookup (key : String) : List (String × PyVal) → Option PyVal
  | [] => Option.none
  | (k, v) :: kvs => if k = key then some v else lookup key kvs

/-- `json.get(key)`: `some v` when `json` is a dict containing `key`. -/
def getKey (v : PyVal) (key : String) : Option PyVal :=
  match v with
  | .dict kvs => lookup key kvs
  | _ => Option.none

/-- `repr(v)` on harness values: like `str` but with strings quoted;
single quotes are written with the escape `\x27`.  Containers render
their elements with `repr`, as Python does. -/
def pyRepr : PyVal → String
  | .none => "None"
  | .bool b => if b then "True" else "False"
  | .int n => toString n
  | .str s => "\x27" ++ s ++ "\x27"
  | .list xs => "[" ++ String.intercalate ", " (pyReprList xs) ++ "]"
  | .dict kvs => "\x7b" ++ String.intercalate ", " (pyReprDict kvs) ++ "\x7d"
where
  /-- `repr` of the elements of a list. -/
  pyReprList : List PyVal → List String
    | [] => []
    | x :: xs => pyRepr x :: pyReprList xs
  /-- `repr` of the entries of a dict. -/
  pyReprDict : List (String × PyVal) → List String
    | [] => []
    | (k, v) :: kvs => ("\x27" ++ k ++ "\x27: " ++ pyRepr v) :: pyReprDict kvs

/-- `str(v)`, as used when interpolating a value into a diagnostic
message: a bare string renders as itself, everything else as `repr`. -/
def pyStr : PyVal → String
  | .str s => s
  | v => pyRepr v

end PyVal

/-! ## testlib.py: the sequential test runner (`execute_test`, `execute_tests`)

A test step takes the previous Ok payload and returns a new `PResult`
together with the list of side effects it performed.  The runner's own
prints (the per-step header and result record, the success banner) and the
`abort` call (`sys.exit(1)`) are part of the observable behaviour and are
modelled explicitly. -/

/-- A test step: a stable name (used in the log) plus a function from the
previous step's unwrapped payload to a result and the effects performed. -/
structure TStep (V E A : Type) where
  name : String
  run : V → PResult V E × List A

/-- One observable side effect of a run. -/
inductive RunEff (V E A : Type) where
  | header : String → RunEff V E A
  | stepEff : A → RunEff V E A
  | record : PResult V E → RunEff V E A
  | banner : RunEff V E A
  deriving DecidableEq

/-- How the run of `execute_tests` ends: either the recursion returns
normally, or `abort` called `sys.exit` with the given status. -/
inductive RunOutcome where
  | finished : RunOutcome
  | exited : Nat → RunOutcome
  deriving DecidableEq, Repr

variable {V E A : Type}

/-- `execute_test(test, prev)`: prints the step header, runs the step on the
unwrapped previous payload, prints the result record, and returns the
result.  The trace lists the effects in the order they occur. -/
def execute_test (t : TStep V E A) (v : V) : PResult V E × List (RunEff V E A) :=
  let (r, effs) := t.run v
  (r, .header t.name :: (effs.map .stepEff ++ [.record r]))

/-- `execute_tests(tests, prev)` of `testlib.py`.  Per iteration the code
computes `result = prev.and_then(lambda v: execute_test(tests[0], v))` and
then runs `prev.or_else(abort)`, so when the accumulated result is `Err`
the head step is not executed and `abort` terminates the process with
status 1.  On the empty list `prev.and_then(print_success_banner)` prints
the banner exactly when `prev` is `Ok`.  Returns the effect trace and how
the run ended. -/
def execute_tests : List (TStep V E A) → PResult V E → List (RunEff V E A) × RunOutcome
  | [], prev => (if prev.isOk then [.banner] else [], .finished)
  | t :: ts, prev =>
    match prev with
    | .err _ => ([], .exited 1)
    | .ok v =>
      let (r, effs) := execute_test t v
      let (trace, out) := execute_tests ts r
      (effs ++ trace, out)

/-- Reference fold for a run of steps starting from an Ok payload, with the
same per-step effects as `execute_tests` but no abort/banner: it stops
right after the first failing step.  Used to phrase "the side effects of
the steps up to and including the first failure". -/
def runSteps : List (TStep V E A) → V → PResult V E × List (RunEff V E A)
  | [], v => (.ok v, [])
  | t :: ts, v =>
    match execute_test t v with
    | (.ok w, effs) =>
      let (r, trace) := runSteps ts w
      (r, effs ++ trace)
    | (.err e, effs) => (.err e, effs)

/-- The accumulated result of chaining all steps by `and_then`, ignoring
effects: the value `execute_tests` would thread to the end absent aborts. -/
def runList : List (TStep V E A) → PResult V E → PResult V E
  | [], prev => prev
  | t :: ts, prev => runList ts (prev.andThen (fun v => (t.run v).1))

/-! ## Python exceptions and item access

The lifecycle predicates and the block waiter subscript nested dicts; a
missing key raises `KeyError`, subscripting/len/iteration on an
unsuitable value raises `TypeError`.  An escaped exception is modelled by
the `Except.error` branch. -/

/-- The exception kinds the embedded code can raise or catch. -/
inductive PyExn where
  | keyError : String → PyExn
  | typeError : PyExn
  | valueError : String → PyExn
  deriving DecidableEq, Repr

namespace PyVal

/-- Whether the value is a dict (`isinstance(v, dict)`). -/
def isDict : PyVal → Bool
  | .dict _ => true
  | _ => false

/-- `v[key]`: dict lookup that raises `KeyError` on a missing key and
`TypeError` when `v` is not subscriptable by a string. -/
def pyGetItem (v : PyVal) (key : String) : Except PyExn PyVal :=
  match v with
  | .dict kvs =>
    match lookup key kvs with
    | some x => .ok x
    | Option.none => .error (.keyError key)
  | _ => .error .typeError

/-- `key in v`: dict-key membership; on a list, element membership; on a
string, substring containment; otherwise `TypeError`. -/
def pyIn (key : String) (v : PyVal) : Except PyExn Bool :=
  match v with
  | .dict kvs => .ok (lookup key kvs).isSome
  | .list xs => .ok (xs.any (fun x => x.pyEq (.str key)))
  | .str s => .ok ((s.splitOn key).length > 1)
  | _ => .error .typeError

/-- `len(v)` on containers, `TypeError` otherwise. -/
def pyLen : PyVal → Except PyExn Nat
  | .list xs => .ok xs.length
  | .str s => .ok s.length
  | .dict kvs => .ok kvs.length
  | _ => .error .typeError

/-- `for x in v`: the sequence iterated over (list elements, string
characters, dict keys), `TypeError` otherwise. -/
def pyIter : PyVal → Except PyExn (List PyVal)
  | .list xs => .ok xs
  | .str s => .ok (s.toList.map (fun c => .str (String.mk [c])))
  | .dict kvs => .ok (kvs.map (fun kv => .str kv.1))
  | _ => .error .typeError

/-- `n >= v` for a Python `int` n against a harness value, as in
`len(matchedTxns) >= rf`: comparing against a non-number raises `TypeError`. -/
def pyGe (n : Nat) (v : PyVal) : Except PyExn Bool :=
  match v with
  | .int m => .ok ((n : Int) ≥ m)
  | .bool b => .ok ((n : Int) ≥ (if b then 1 else 0))
  | _ => .error .typeError

end PyVal

open PyVal

/-! ## testlib.py: run context, request builder, response checker -/

/-- The process-wide mutable `context` dict, passed explicitly. -/
abbrev Ctx : Type := List (String × PyVal)

/-- Dict assignment `ctx[key] = v`: replaces the first binding or appends. -/
def ctxSet : Ctx → String → PyVal → Ctx
  | [], key, v => [(key, v)]
  | (k, w) :: kvs, key, v =>
    if k = key then (k, v) :: kvs else (k, w) :: ctxSet kvs key v

/-- `ctx.get(key)`. -/
def ctxGet (ctx : Ctx) (key : String) : Option PyVal :=
  PyVal.lookup key ctx

/-- `jsonrpc_request(method, params)` applied to the previous value: reads
`context['last_id']` (a `KeyError` if absent, `TypeError` if `+ 1` cannot
apply), stores `last_id + 1` back, and returns `Ok` with the request
object `{jsonrpc: '2.0', method, params, id}` carrying the pre-increment
id.  `json.dumps` is an excluded serialization collaborator, so the model
returns the request object itself inside the `Ok`. -/
def jsonrpc_request (method : String) (params : PyVal) (ctx : Ctx) :
    Except PyExn (Ctx × PResult PyVal String) := do
  let idv ← match ctxGet ctx "last_id" with
    | some v => Except.ok v
    | Option.none => Except.error (.keyError "last_id")
  let n ← match idv with
    | .int n => Except.ok n
    | .bool b => Except.ok (if b then (1 : Int) else 0)
    | _ => Except.error PyExn.typeError
  let ctx' := ctxSet ctx "last_id" (.int (n + 1))
  pure (ctx', .ok (.dict [("jsonrpc", .str "2.0"), ("method", .str method),
    ("params", params), ("id", .int n)]))

/-- `jsonrpc_check_result(checker_function)` applied to a decoded JSON-RPC
response object (a dict): succeeds when a `result` entry is present and
the checker's return value compares `== True`, fails citing the negative
result otherwise, and fails citing `json.get('error')` when no `result`
entry exists. -/
def jsonrpc_check_result (checker : PyVal → PyVal) (json : PyVal) :
    PResult String String :=
  match json.getKey "result" with
  | some r =>
    if (checker r).pyEq (.bool true) then
      .ok ("raw request was successful and the result was positive (result was: "
        ++ r.pyStr ++ ")")
    else
      .err ("raw request was successfully executed but the result was negative (result was: "
        ++ r.pyStr ++ ")")
  | Option.none =>
    .err ("raw request failed. Error was: " ++ ((json.getKey "error").getD .none).pyStr)

/-- `from_context(key)`: `context.get(key)` yields `None` when the key is
absent; the value is returned in an `Ok` exactly when it is truthy
(`if val:`), otherwise the step fails. -/
def from_context (key : String) (ctx : Ctx) : PResult PyVal String :=
  let val := (ctxGet ctx key).getD .none
  if val.pyTruthy then .ok val
  else .err ("no key \x27" ++ key ++ "\x27 in context")

/-! ## testlib.py: the block-waiting state machine (`wait_for_next_block`) -/

/-- The result of classifying one notification message in
`wait_for_next_block`'s `decide`: a block announcement (the nested
`params.result.block_header` path exists; carries the extracted block
payload `res['params']['result']` and its checkpoint) or irrelevant
noise.  The checkpoint extraction
`block['block_header']['beacon']['checkpoint']` happens before the filter
is applied and can itself raise. -/
inductive Classified where
  | announcement : PyVal → PyVal → Classified
  | noise : Classified

/-- The classification step of `decide`, including the checkpoint
extraction. -/
def classifyMsg (res : PyVal) : Except PyExn Classified := do
  let hasParams ← pyIn "params" res
  if hasParams then
    let params ← res.pyGetItem "params"
    if params.isDict then
      let hasResult ← pyIn "result" params
      if hasResult then
        let result ← params.pyGetItem "result"
        if result.isDict then
          let hasHeader ← pyIn "block_header" result
          if hasHeader then
            let header ← result.pyGetItem "block_header"
            let beacon ← header.pyGetItem "beacon"
            let cp ← beacon.pyGetItem "checkpoint"
            pure (.announcement result cp)
          else pure .noise
        else pure .noise
      else pure .noise
    else pure .noise
  else pure .noise

/-- How one activation of the block waiter ends. -/
inductive WaitOut where
  | ok : PyVal → WaitOut
  | err : String → WaitOut
  | exn : PyExn → WaitOut
  | blocked : WaitOut

/-- The terminal failure message of the waiter. -/
def waitFailMsg (maxRetries : Nat) : String :=
  "couldn\x27t find a block passing the filter after " ++ toString maxRetries
    ++ " retries"

/-- `wait_for_next_block(max_retries, filter_function)` applied to `prev`,
reading parsed messages from `stream` with `retries_left` remaining.  A
noise message recurses through the *default* argument, so `retries_left`
is reset to `max_retries`; a block failing the filter retries with
`retries_left - 1` while `retries_left > 1` and otherwise fails.  Returns
the outcome together with the number of retry transitions performed; an
empty stream means `jsonrpc_read` blocks forever, and an escaped
exception surfaces as `.exn`. -/
def wait_for_next_block (maxRetries : Nat)
    (filt : PyVal → PyVal → PResult PyVal String) (prev : PyVal) :
    List PyVal → Nat → WaitOut × Nat
  | [], _ => (.blocked, 0)
  | msg :: rest, retriesLeft =>
    match classifyMsg msg with
    | .error e => (.exn e, 0)
    | .ok .noise => wait_for_next_block maxRetries filt prev rest maxRetries
    | .ok (.announcement block _cp) =>
      match filt block prev with
      | .ok v => (.ok v, 0)
      | .err _reason =>
        if 1 < retriesLeft then
          let (out, n) := wait_for_next_block maxRetries filt prev rest (retriesLeft - 1)
          (out, n + 1)
        else
          (.err (waitFailMsg maxRetries), 0)

/-! ## testlib.py: the retry/poll combinator -/

/-- The terminal failure message of `poll`. -/
def pollFailMsg (name : String) (maxRetries : Nat) : String :=
  "test \x27" ++ name ++ "\x27 didn\x27t succeed after " ++ toString maxRetries
    ++ " retries"

/-- The recursion of `poll(inner_function, period, max_retries)`: the
wrapped step is side-effecting, so its successive invocations are modelled
by `f : Nat → PResult V String` giving the result of the i-th invocation.
`pollGo f name maxRetries i retriesLeft` runs invocation `i`; on `Err` it
retries with `retriesLeft - 1` while `retries_left > 1` and otherwise
fails.  Returns the final result and the total number of invocations. -/
def pollGo {V : Type} (f : Nat → PResult V String) (name : String)
    (maxRetries : Nat) (i : Nat) : Nat → PResult V String × Nat
  | 0 =>
    match f i with
    | .ok v => (.ok v, i + 1)
    | .err _ => (.err (pollFailMsg name maxRetries), i + 1)
  | 1 =>
    match f i with
    | .ok v => (.ok v, i + 1)
    | .err _ => (.err (pollFailMsg name maxRetries), i + 1)
  | rl + 2 =>
    match f i with
    | .ok v => (.ok v, i + 1)
    | .err _ => pollGo f name maxRetries (i + 1) (rl + 1)

/-- `poll(inner_function, period, max_retries)` applied to a previous
value: invocation results are `f`, the first invocation is attempt 0,
and the initial retry budget is `max_retries`.  The sleep between
attempts is a pure delay with no observable effect in the model. -/
def poll {V : Type} (f : Nat → PResult V String) (name : String)
    (maxRetries : Nat) : PResult V String × Nat :=
  pollGo f name maxRetries 0 maxRetries

/-! ## testlib.py: the data-request lifecycle predicates -/

/-- The catch-all diagnostic built by the bare `except:` branches. -/
def unknownErrMsg (block request : PyVal) : String :=
  "unknown error.\n\tBlock was " ++ block.pyStr ++ "\n\tRequest was "
    ++ request.pyStr

/-- The `try` body of `block_contains_dr`. -/
def block_contains_dr_body (block request : PyVal) :
    Except PyExn (PResult PyVal String) := do
  let header ← block.pyGetItem "block_header"
  let beacon ← header.pyGetItem "beacon"
  let _checkpoint ← beacon.pyGetItem "checkpoint"
  let txns ← block.pyGetItem "txns"
  let drs ← txns.pyGetItem "data_request_txns"
  let drsLen ← drs.pyLen
  if 0 < drsLen then
    let items ← drs.pyIter
    let matchedTxns ← items.filterM (fun dr => do
      let body ← dr.pyGetItem "body"
      let dro ← body.pyGetItem "dr_output"
      let params ← request.pyGetItem "params"
      let reqDro ← params.pyGetItem "dro"
      pure (dro.pyEq reqDro))
    if 0 < matchedTxns.length then
      pure (.ok block)
    else
      pure (.err "the data request was not included")
  else
    pure (.err "there are no data requests inside")

/-- `block_contains_dr`: the `try` body guarded by a bare `except:`, so
every exception is swallowed into the catch-all diagnostic. -/
def block_contains_dr (block request : PyVal) : PResult PyVal String :=
  match block_contains_dr_body block request with
  | .ok r => r
  | .error _ => .err (unknownErrMsg block request)

/-- The `try` body of `block_contains_commitments_for_dr`. -/
def block_contains_commitments_for_dr_body (block request : PyVal) :
    Except PyExn (PResult PyVal String) := do
  let header ← block.pyGetItem "block_header"
  let beacon ← header.pyGetItem "beacon"
  let _checkpoint ← beacon.pyGetItem "checkpoint"
  let txns ← block.pyGetItem "txns"
  let commits ← txns.pyGetItem "commit_txns"
  let commitsLen ← commits.pyLen
  if 0 < commitsLen then
    let matchedTxns ← commits.pyIter
    if 0 < matchedTxns.length then
      let params ← request.pyGetItem "params"
      let dro ← params.pyGetItem "dro"
      let rf ← dro.pyGetItem "witnesses"
      let enough ← pyGe matchedTxns.length rf
      if enough then
        pure (.ok block)
      else
        pure (.err ("there are not enough commitments (" ++ toString matchedTxns.length
          ++ " < " ++ rf.pyStr ++ ")"))
    else
      pure (.err "there are no commitments for the specific data request")
  else
    pure (.err "there are no commitments inside")

/-- `block_contains_commitments_for_dr`: unlike its three siblings, the
`try` is followed only by `except ValueError` and a dead `else:` clause
(the body always returns, so `else` never runs), so any exception other
than `ValueError` — in particular a `KeyError` from a missing field —
escapes to the caller. -/
def block_contains_commitments_for_dr (block request : PyVal) :
    Except PyExn (PResult PyVal String) :=
  match block_contains_commitments_for_dr_body block request with
  | .error (.valueError m) => .ok (.err ("ValueError: " ++ m))
  | r => r

/-- The `try` body of `block_contains_reveals_for_dr`. -/
def block_contains_reveals_for_dr_body (block request : PyVal) :
    Except PyExn (PResult PyVal String) := do
  let header ← block.pyGetItem "block_header"
  let beacon ← header.pyGetItem "beacon"
  let _checkpoint ← beacon.pyGetItem "checkpoint"
  let txns ← block.pyGetItem "txns"
  let reveals ← txns.pyGetItem "reveal_txns"
  let revealsLen ← reveals.pyLen
  if 0 < revealsLen then
    let matchedTxns ← reveals.pyIter
    if 0 < matchedTxns.length then
      let params ← request.pyGetItem "params"
      let dro ← params.pyGetItem "dro"
      let rf ← dro.pyGetItem "witnesses"
      let enough ← pyGe matchedTxns.length rf
      if enough then
        pure (.ok block)
      else
        pure (.err ("there are not enough reveals (" ++ toString matchedTxns.length
          ++ " < " ++ rf.pyStr ++ ")"))
    else
      pure (.err "there are no reveals for the specific data request")
  else
    pure (.err "there are no reveals inside")

/-- `block_contains_reveals_for_dr`: `except ValueError` first, then a bare
`except:`, so every exception is swallowed. -/
def block_contains_reveals_for_dr (block request : PyVal) : PResult PyVal String :=
  match block_contains_reveals_for_dr_body block request with
  | .ok r => r
  | .error (.valueError m) => .err ("ValueError: " ++ m)
  | .error _ => .err (unknownErrMsg block request)

/-- The `try` body of `block_contains_tally_for_dr`; the request argument
is taken but never read by the body. -/
def block_contains_tally_for_dr_body (block _request : PyVal) :
    Except PyExn (PResult PyVal String) := do
  let header ← block.pyGetItem "block_header"
  let beacon ← header.pyGetItem "beacon"
  let _checkpoint ← beacon.pyGetItem "checkpoint"
  let txns ← block.pyGetItem "txns"
  let tallies ← txns.pyGetItem "tally_txns"
  let talliesLen ← tallies.pyLen
  if 0 < talliesLen then
    let matchedTxns ← tallies.pyIter
    if matchedTxns.length = 1 then
      pure (.ok block)
    else if 1 < matchedTxns.length then
      pure (.err ("there are too many tallies for the specific data request ("
        ++ toString matchedTxns.length ++ ")"))
    else
      pure (.err "there is no tally for the specific data request")
  else
    pure (.err "there are no tallies inside")

/-- `block_contains_tally_for_dr`: `except ValueError` first, then a bare
`except:`, so every exception is swallowed. -/
def block_contains_tally_for_dr (block request : PyVal) : PResult PyVal String :=
  match block_contains_tally_for_dr_body block request with
  | .ok r => r
  | .error (.valueError m) => .err ("ValueError: " ++ m)
  | .error _ => .err (unknownErrMsg block request)

/-! ## Concrete fixtures used by witnesses and counterexamples -/

/-- A step that succeeds, incrementing its input and emitting effect 10. -/
def sOk : TStep Nat String Nat :=
  ⟨"step_ok", fun n => (.ok (n + 1), [10])⟩

/-- A step that always fails with "boom", emitting effect 20. -/
def sFail : TStep Nat String Nat :=
  ⟨"step_fail", fun _ => (.err "boom", [20])⟩

/-- A step that would succeed, emitting effect 30; placed after a failing
step it must never run. -/
def sNever : TStep Nat String Nat :=
  ⟨"step_never", fun n => (.ok n, [30])⟩

/-- A well-formed block payload (`params.result` of a notification) whose
only distinguishing datum is its checkpoint. -/
def blockPayload (cp : Int) : PyVal :=
  .dict [("block_header", .dict [("beacon", .dict [("checkpoint", .int cp)])]),
         ("txns", .dict [("data_request_txns", .list []), ("commit_txns", .list []),
                         ("reveal_txns", .list []), ("tally_txns", .list [])])]

/-- A block-announcement notification carrying `blockPayload cp`. -/
def blockMsg (cp : Int) : PyVal :=
  .dict [("params", .dict [("result", blockPayload cp)])]

/-- An irrelevant notification (e.g. a subscription acknowledgement):
no `params` key, so the waiter classifies it as noise. -/
def noiseMsg : PyVal :=
  .dict [("jsonrpc", .str "2.0"), ("result", .int 1)]

/-- A concrete filter passing exactly the blocks whose checkpoint is at
least `threshold`; used to drive the waiter in concrete runs. -/
def cpFilter (threshold : Int) : PyVal → PyVal → PResult PyVal String :=
  fun block _prev =>
    match ((block.getKey "block_header").bind (fun h => h.getKey "beacon")).bind
        (fun b => b.getKey "checkpoint") with
    | some (.int cp) =>
      if threshold ≤ cp then .ok block else .err "checkpoint too low"
    | _ => .err "no checkpoint"

/-- A placeholder commit transaction. -/
def commitTx : PyVal := .dict [("commitment", .int 1)]

/-- A well-formed block whose commit-transaction collection is `commits`. -/
def commitBlock (commits : List PyVal) : PyVal :=
  .dict [("block_header", .dict [("beacon", .dict [("checkpoint", .int 7)])]),
         ("txns", .dict [("commit_txns", .list commits)])]

/-- A well-formed data-request descriptor with the given replication
factor in `params.dro.witnesses`. -/
def witnessRequest (w : Int) : PyVal :=
  .dict [("params", .dict [("dro", .dict [("witnesses", .int w)])])]

/-- The checker `lambda id: int(id) > 0` of the subscription scenario.
`int()` applied to a non-numeric payload raises in Python; the scenario
only ever applies the checker to the integer subscription id, and the
model totalises the remaining cases to `False`. -/
def subscriptionIdChecker : PyVal → PyVal
  | .int n => .bool (0 < n)
  | .bool b => .bool (0 < if b then (1 : Int) else 0)
  | _ => .bool false

/-- Invocation results of a side-effecting step that fails twice and then
succeeds with 42, as a function of the attempt number. -/
def flakyStep : Nat → PResult Nat String :=
  fun i => if i < 2 then .err "not yet" else .ok 42

/-! ## Lemmas about the sequential runner -/

/-- Chaining an `Err` through every step leaves it unchanged. -/
theorem runList_err {V E A : Type} (ts : List (TStep V E A)) (e : E) :
    runList ts (.err e) = .err e := by
  induction ts with
  | nil => rfl
  | cons t ts ih => simpa [runList, PResult.andThen] using ih

/-- The per-step trace of `execute_test` never contains the banner. -/
theorem banner_not_in_execute_test {V E A : Type} (t : TStep V E A) (v : V) :
    RunEff.banner ∉ (execute_test t v).2 := by
  rcases htv : t.run v with ⟨r, effs⟩
  simp [execute_test, htv]

/-- Key splitting lemma: if every step of `pre` succeeds (threading `v` to
`w` with trace `tr`) and `f` then fails, the whole run's trace is exactly
`tr` plus `f`'s own effects, independently of `post`, and the run either
aborts with status 1 (when steps remain after `f`) or falls off the end of
the list (when `f` was last). -/
theorem execute_tests_fail_split {V E A : Type}
    (pre : List (TStep V E A)) (f : TStep V E A) (post : List (TStep V E A))
    (v w : V) (tr : List (RunEff V E A)) (e : E) (effs : List A)
    (hpre : runSteps pre v = (.ok w, tr))
    (hf : f.run w = (.err e, effs)) :
    execute_tests (pre ++ f :: post) (.ok v)
      = (tr ++ (.header f.name :: (effs.map .stepEff ++ [.record (.err e)])),
         if post.isEmpty then RunOutcome.finished else .exited 1) := by
  induction pre generalizing v tr with
  | nil =>
    simp only [runSteps, Prod.mk.injEq, PResult.ok.injEq] at hpre
    obtain ⟨rfl, rfl⟩ := hpre
    cases post with
    | nil => simp [execute_tests, execute_test, hf, PResult.isOk]
    | cons p ps => simp [execute_tests, execute_test, hf]
  | cons t pre ih =>
    rcases htv : t.run v with ⟨r0, effs0⟩
    cases r0 with
    | ok v1 =>
      rcases hrs : runSteps pre v1 with ⟨r1, tr1⟩
      simp only [runSteps, execute_test, htv, hrs, Prod.mk.injEq] at hpre
      obtain ⟨rfl, rfl⟩ := hpre
      have := ih v1 tr1 hrs
      simp [execute_tests, execute_test, htv, this]
    | err e1 =>
      simp only [runSteps, execute_test, htv] at hpre
      simp at hpre

/-- The success banner appears in the run's trace exactly when the
accumulated result of chaining every step is `Ok`. -/
theorem banner_mem_execute_tests_iff {V E A : Type}
    (ts : List (TStep V E A)) (prev : PResult V E) :
    RunEff.banner ∈ (execute_tests ts prev).1 ↔ (runList ts prev).isOk = true := by
  induction ts generalizing prev with
  | nil => cases prev <;> simp [execute_tests, runList, PResult.isOk]
  | cons t ts ih =>
    cases prev with
    | err e => simp [execute_tests, runList, PResult.andThen, runList_err, PResult.isOk]
    | ok v =>
      rcases htv : t.run v with ⟨r0, effs0⟩
      have hnb := banner_not_in_execute_test t v
      simp only [execute_test, htv] at hnb
      simp [execute_tests, execute_test, htv, runList, PResult.andThen,
        List.mem_append, ih, hnb]

/-! ## The claims -/

/-- C1: for every list of steps and every initial Result, if some step in
the sequence returns Err, the runner never invokes any step after it, and
the observed side effects of the run are exactly those of the steps up to
and including the first failing step: when every step of `pre` succeeds
(threading `v` to `w` with trace `tr`) and `f` then fails, the whole run's
trace is `tr` plus `f`'s own header/effects/record — independent of
`post` — and the run aborts before touching any step of `post`. -/
theorem C1_runner_stops_at_first_failure {V E A : Type}
    (pre : List (TStep V E A)) (f : TStep V E A) (post : List (TStep V E A))
    (v w : V) (tr : List (RunEff V E A)) (e : E) (effs : List A)
    (hpre : runSteps pre v = (.ok w, tr))
    (hf : f.run w = (.err e, effs)) :
    execute_tests (pre ++ f :: post) (.ok v)
      = (tr ++ (.header f.name :: (effs.map .stepEff ++ [.record (.err e)])),
         if post.isEmpty then RunOutcome.finished else .exited 1) :=
  execute_tests_fail_split pre f post v w tr e effs hpre hf

/-- Witness for C1: a run `[sOk, sFail, sNever]` executes `sOk` and
`sFail`, records exactly their effects, and aborts with status 1 without
ever invoking `sNever`. -/
theorem C1_witness :
    execute_tests [sOk, sFail, sNever] (.ok 0)
      = ([.header "step_ok", .stepEff 10, .record (.ok 1),
          .header "step_fail", .stepEff 20, .record (.err "boom")],
         .exited 1) :=
  C1_runner_stops_at_first_failure [sOk] sFail [sNever] 0 1
    [.header "step_ok", .stepEff 10, .record (.ok 1)] "boom" [20] rfl rfl

/-- C2 counterexample: when the failing step is the *last* one in the
list, `execute_tests` recurses into the empty-list branch with an `Err`
accumulator, which never calls `abort`: the recursion simply finishes (the
Python process then falls off the end of the script and exits with status
0), refuting "the process terminates with a non-zero exit status
(including when the failing step is the last one in the list)". -/
theorem C2_counterexample_last_step_failure :
    (sFail.run 0).1 = .err "boom"
      ∧ execute_tests [sFail] (.ok 0)
          = ([.header "step_fail", .stepEff 20, .record (.err "boom")],
             RunOutcome.finished) :=
  ⟨rfl, rfl⟩

/-- C2 (amended): whenever a step *other than the last one* returns Err,
the process terminates via `abort` with exit status 1; when only the last
step fails, the runner returns normally (the process exits 0).  In every
case the success banner is printed if and only if chaining every step
produced an `Ok`. -/
theorem C2_amended_exit_and_banner {V E A : Type}
    (pre : List (TStep V E A)) (f : TStep V E A) (post : List (TStep V E A))
    (v w : V) (tr : List (RunEff V E A)) (e : E) (effs : List A)
    (ts : List (TStep V E A)) (prev : PResult V E)
    (hpost : post ≠ [])
    (hpre : runSteps pre v = (.ok w, tr))
    (hf : f.run w = (.err e, effs)) :
    (execute_tests (pre ++ f :: post) (.ok v)).2 = .exited 1
      ∧ (RunEff.banner ∈ (execute_tests ts prev).1 ↔ (runList ts prev).isOk = true) := by
  refine ⟨?_, banner_mem_execute_tests_iff ts prev⟩
  cases post with
  | nil => exact absurd rfl hpost
  | cons p ps =>
    rw [execute_tests_fail_split pre f (p :: ps) v w tr e effs hpre hf]
    rfl

/-- Witness for C2 (amended): `[sFail, sNever]` aborts with status 1, and
on the all-Ok run `[sOk]` the banner is printed. -/
theorem C2_amended_witness :
    (execute_tests [sFail, sNever] (.ok 0)).2 = .exited 1
      ∧ (RunEff.banner ∈ (execute_tests [sOk] (.ok (0 : Nat))).1
          ↔ (runList [sOk] (.ok 0)).isOk = true) :=
  C2_amended_exit_and_banner [] sFail [sNever] 0 0 [] "boom" [20] [sOk] (.ok 0)
    (List.cons_ne_nil sNever []) rfl rfl

/-- Setting a key and reading it back yields the stored value. -/
theorem ctxGet_ctxSet (ctx : Ctx) (k : String) (v : PyVal) :
    ctxGet (ctxSet ctx k v) k = some v := by
  induction ctx with
  | nil => simp [ctxSet, ctxGet, PyVal.lookup]
  | cons kv ctx ih =>
    rcases kv with ⟨k', v'⟩
    by_cases hk : k' = k
    · subst hk
      simp [ctxSet, ctxGet, PyVal.lookup]
    · simpa [ctxSet, ctxGet, PyVal.lookup, hk] using ih

/-- C6: every invocation of `jsonrpc_request` increments the run context's
`last_id` by exactly 1 and returns Ok with a request carrying the
pre-increment value as its id; two consecutive requests built in the same
run carry the distinct ids `n` and `n + 1`. -/
theorem C6_request_id_increments (method method' : String) (params params' : PyVal)
    (ctx : Ctx) (n : Int)
    (h : ctxGet ctx "last_id" = some (.int n)) :
    ∃ ctx', jsonrpc_request method params ctx
        = .ok (ctx', .ok (.dict [("jsonrpc", .str "2.0"), ("method", .str method),
            ("params", params), ("id", .int n)]))
      ∧ ctxGet ctx' "last_id" = some (.int (n + 1))
      ∧ (∃ ctx'', jsonrpc_request method' params' ctx'
          = .ok (ctx'', .ok (.dict [("jsonrpc", .str "2.0"), ("method", .str method'),
              ("params", params'), ("id", .int (n + 1))]))
          ∧ ctxGet ctx'' "last_id" = some (.int (n + 1 + 1)))
      ∧ n ≠ n + 1 := by
  refine ⟨ctxSet ctx "last_id" (.int (n + 1)), ?_, ctxGet_ctxSet ctx _ _, ?_, by omega⟩
  · simp only [jsonrpc_request, h]
    rfl
  · refine ⟨ctxSet (ctxSet ctx "last_id" (.int (n + 1))) "last_id" (.int (n + 1 + 1)),
      ?_, ctxGet_ctxSet _ _ _⟩
    simp only [jsonrpc_request, ctxGet_ctxSet ctx "last_id" (.int (n + 1))]
    rfl

/-- Witness for C6: starting from the initial context `{last_id: 0}`, the
first two requests carry ids 0 and 1 and `last_id` ends at 2. -/
theorem C6_witness :
    ∃ ctx', jsonrpc_request "witnet_subscribe" (.list [.str "newBlocks"])
          [("last_id", .int 0)]
        = .ok (ctx', .ok (.dict [("jsonrpc", .str "2.0"),
            ("method", .str "witnet_subscribe"),
            ("params", .list [.str "newBlocks"]), ("id", .int 0)]))
      ∧ ctxGet ctx' "last_id" = some (.int (0 + 1))
      ∧ (∃ ctx'', jsonrpc_request "witnet_unsubscribe" (.list [.int 1]) ctx'
          = .ok (ctx'', .ok (.dict [("jsonrpc", .str "2.0"),
              ("method", .str "witnet_unsubscribe"),
              ("params", .list [.int 1]), ("id", .int (0 + 1))]))
          ∧ ctxGet ctx'' "last_id" = some (.int (0 + 1 + 1)))
      ∧ (0 : Int) ≠ 0 + 1 :=
  C6_request_id_increments "witnet_subscribe" "witnet_unsubscribe"
    (.list [.str "newBlocks"]) (.list [.int 1]) [("last_id", .int 0)] 0 rfl

/-- C7: on a decoded JSON-RPC response object, `jsonrpc_check_result`
returns Ok iff a `result` entry is present and the checker yields true on
it; when the result is present but the checker yields false the Err cites
the negative outcome, and when `result` is absent the Err cites the
response's `error` entry.  In particular the subscription scenario
`{"result": 1}` checked with `lambda id: int(id) > 0` yields Ok. -/
theorem C7_check_result_iff (p : PyVal → Bool) (kvs : List (String × PyVal)) :
    ((jsonrpc_check_result (fun v => .bool (p v)) (.dict kvs)).isOk = true
        ↔ ∃ r, PyVal.lookup "result" kvs = some r ∧ p r = true)
      ∧ (∀ r, PyVal.lookup "result" kvs = some r → p r = false →
          jsonrpc_check_result (fun v => .bool (p v)) (.dict kvs)
            = .err ("raw request was successfully executed but the result was negative (result was: "
                ++ r.pyStr ++ ")"))
      ∧ (PyVal.lookup "result" kvs = Option.none →
          jsonrpc_check_result (fun v => .bool (p v)) (.dict kvs)
            = .err ("raw request failed. Error was: "
                ++ ((PyVal.lookup "error" kvs).getD .none).pyStr))
      ∧ jsonrpc_check_result subscriptionIdChecker (.dict [("result", .int 1)])
          = .ok "raw request was successful and the result was positive (result was: 1)" := by
  refine ⟨?_, ?_, ?_, by decide⟩
  · cases hres : PyVal.lookup "result" kvs with
    | none =>
      simp [jsonrpc_check_result, PyVal.getKey, hres, PResult.isOk]
    | some r =>
      cases hp : p r <;>
        simp [jsonrpc_check_result, PyVal.getKey, hres, PResult.isOk, PyVal.pyEq, hp]
  · intro r hres hp
    simp [jsonrpc_check_result, PyVal.getKey, hres, PyVal.pyEq, hp]
  · intro hres
    simp [jsonrpc_check_result, PyVal.getKey, hres]

/-- C10: `from_context(key)` returns Ok with the stored value exactly when
that value is truthy; a falsy stored value (0, empty string, empty list,
False, None) and an absent key alike produce the same Err. -/
theorem C10_from_context_truthiness (key : String) (ctx : Ctx) :
    (∀ v, from_context key ctx = .ok v ↔ (ctxGet ctx key = some v ∧ v.pyTruthy = true))
      ∧ (∀ v, ctxGet ctx key = some v → v.pyTruthy = false →
          from_context key ctx = .err ("no key \x27" ++ key ++ "\x27 in context"))
      ∧ (ctxGet ctx key = Option.none →
          from_context key ctx = .err ("no key \x27" ++ key ++ "\x27 in context"))
      ∧ from_context "z" [("z", .int 0)] = .err "no key \x27z\x27 in context"
      ∧ from_context "s" [("s", .str "")] = .err "no key \x27s\x27 in context"
      ∧ from_context "l" [("l", .list [])] = .err "no key \x27l\x27 in context"
      ∧ from_context "b" [("b", .bool false)] = .err "no key \x27b\x27 in context"
      ∧ from_context "n" [("n", PyVal.none)] = .err "no key \x27n\x27 in context" := by
  refine ⟨?_, ?_, ?_, rfl, rfl, rfl, rfl, rfl⟩
  · intro v
    constructor
    · intro hok
      simp only [from_context] at hok
      cases hg : ctxGet ctx key with
      | none =>
        rw [hg] at hok
        simp [PyVal.pyTruthy] at hok
      | some w =>
        rw [hg] at hok
        simp only [Option.getD_some] at hok
        by_cases hw : w.pyTruthy = true
        · rw [if_pos hw] at hok
          injection hok with hwv
          subst hwv
          exact ⟨rfl, hw⟩
        · rw [if_neg hw] at hok
          cases hok
    · rintro ⟨hsome, htr⟩
      simp [from_context, hsome, htr]
  · intro v hg hv
    simp [from_context, hg, hv]
  · intro hg
    simp [from_context, hg, PyVal.pyTruthy]

/-- Full characterisation of the poll recursion: starting at attempt `i`
with `rl` retries left, the number of invocations is between 1 and
`max rl 1`, every invocation before the last returned Err, an Ok result is
the last invocation's result, and an Err result means the whole budget was
spent on failing invocations. -/
theorem pollGo_spec {V : Type} (f : Nat → PResult V String) (name : String)
    (maxR : Nat) :
    ∀ rl i res c, pollGo f name maxR i rl = (res, c) →
      i + 1 ≤ c ∧ c ≤ i + max rl 1
        ∧ (∀ j, i ≤ j → j + 1 < c → (f j).isErr = true)
        ∧ (res.isOk = true → res = f (c - 1))
        ∧ (res.isErr = true → c = i + max rl 1
            ∧ ∀ j, i ≤ j → j < c → (f j).isErr = true) := by
  intro rl
  induction rl using Nat.strong_induction_on with
  | _ rl ih =>
    intro i res c h
    rcases rl with _ | _ | rl'
    · cases hf : f i with
      | ok v =>
        simp only [pollGo, hf] at h
        injection h with h1 h2
        subst h1
        subst h2
        refine ⟨Nat.le_refl _, by omega, fun j hij hj => absurd hj (by omega), ?_, ?_⟩
        · intro _
          rw [Nat.add_sub_cancel]
          exact hf.symm
        · intro hcontra
          simp [PResult.isErr] at hcontra
      | err e =>
        simp only [pollGo, hf] at h
        injection h with h1 h2
        subst h1
        subst h2
        refine ⟨Nat.le_refl _, by omega, fun j hij hj => absurd hj (by omega), ?_, ?_⟩
        · intro hcontra
          simp [PResult.isOk] at hcontra
        · intro _
          refine ⟨by omega, fun j hij hjc => ?_⟩
          have hj : j = i := by omega
          subst hj
          rw [hf]
          rfl
    · cases hf : f i with
      | ok v =>
        simp only [pollGo, hf] at h
        injection h with h1 h2
        subst h1
        subst h2
        refine ⟨Nat.le_refl _, by omega, fun j hij hj => absurd hj (by omega), ?_, ?_⟩
        · intro _
          rw [Nat.add_sub_cancel]
          exact hf.symm
        · intro hcontra
          simp [PResult.isErr] at hcontra
      | err e =>
        simp only [pollGo, hf] at h
        injection h with h1 h2
        subst h1
        subst h2
        refine ⟨Nat.le_refl _, by omega, fun j hij hj => absurd hj (by omega), ?_, ?_⟩
        · intro hcontra
          simp [PResult.isOk] at hcontra
        · intro _
          refine ⟨by omega, fun j hij hjc => ?_⟩
          have hj : j = i := by omega
          subst hj
          rw [hf]
          rfl
    · cases hf : f i with
      | ok v =>
        simp only [pollGo, hf] at h
        injection h with h1 h2
        subst h1
        subst h2
        refine ⟨Nat.le_refl _, by omega, fun j hij hj => absurd hj (by omega), ?_, ?_⟩
        · intro _
          rw [Nat.add_sub_cancel]
          exact hf.symm
        · intro hcontra
          simp [PResult.isErr] at hcontra
      | err e =>
        simp only [pollGo, hf] at h
        obtain ⟨ih1, ih2, ih3, ih4, ih5⟩ := ih (rl' + 1) (by omega) (i + 1) res c h
        refine ⟨by omega, by omega, ?_, ih4, ?_⟩
        · intro j hij hjc
          by_cases hji : j = i
          · subst hji
            rw [hf]
            rfl
          · exact ih3 j (by omega) hjc
        · intro hres
          obtain ⟨hc, hall⟩ := ih5 hres
          refine ⟨by omega, fun j hij hjc => ?_⟩
          by_cases hji : j = i
          · subst hji
            rw [hf]
            rfl
          · exact hall j (by omega) hjc

/-- C5 counterexample: with `max_retries = 0` the wrapped step is still
invoked once (the body calls `inner_function(prev)` before consulting the
budget), so "at most n invocations" fails at n = 0. -/
theorem C5_counterexample_zero_budget :
    poll (fun _ => (PResult.err "always" : PResult Nat String)) "probe" 0
      = (.err (pollFailMsg "probe" 0), 1) ∧ ¬(1 ≤ 0) :=
  ⟨rfl, by omega⟩

/-- C5 (amended): `poll(step, period, n)` invokes the wrapped step at
least once and at most `max n 1` times (so at most `n` times whenever
`n ≥ 1`); it returns the first Ok produced by any attempt as soon as it
occurs — every earlier attempt returned Err and the result is the final
attempt's Ok — and returns Err only after all `max n 1` attempts have
returned Err. -/
theorem C5_amended_poll_attempts {V : Type} (f : Nat → PResult V String)
    (name : String) (n : Nat) (res : PResult V String) (c : Nat)
    (h : poll f name n = (res, c)) :
    1 ≤ c ∧ c ≤ max n 1
      ∧ (∀ j, j + 1 < c → (f j).isErr = true)
      ∧ (res.isOk = true → res = f (c - 1))
      ∧ (res.isErr = true → c = max n 1
          ∧ ∀ j, j < max n 1 → (f j).isErr = true) := by
  obtain ⟨h1, h2, h3, h4, h5⟩ := pollGo_spec f name n n 0 res c h
  refine ⟨h1, by omega, fun j hj => h3 j (Nat.zero_le j) hj, h4, fun hres => ?_⟩
  obtain ⟨hc, hall⟩ := h5 hres
  exact ⟨by omega, fun j hj => hall j (Nat.zero_le j) (by omega)⟩

/-- Witness for C5 (amended): a step failing on attempts 0 and 1 and
succeeding on attempt 2 under budget 5 is invoked exactly 3 times and the
Ok of attempt 2 is returned. -/
theorem C5_amended_witness :
    1 ≤ 3 ∧ 3 ≤ max 5 1
      ∧ (∀ j, j + 1 < 3 → (flakyStep j).isErr = true)
      ∧ ((PResult.ok 42 : PResult Nat String).isOk = true
          → (PResult.ok 42 : PResult Nat String) = flakyStep (3 - 1))
      ∧ ((PResult.ok 42 : PResult Nat String).isErr = true → 3 = max 5 1
          ∧ ∀ j, j < max 5 1 → (flakyStep j).isErr = true) :=
  C5_amended_poll_attempts flakyStep "flaky" 5 (.ok 42) 3 rfl

/-- A message classified as noise makes the waiter recurse through the
*default* `retries_left=max_retries` argument, resetting the budget. -/
theorem wait_noise_resets (maxR : Nat)
    (filt : PyVal → PyVal → PResult PyVal String) (prev m : PyVal)
    (rest : List PyVal) (rl : Nat)
    (hm : classifyMsg m = .ok .noise) :
    wait_for_next_block maxR filt prev (m :: rest) rl
      = wait_for_next_block maxR filt prev rest maxR := by
  simp [wait_for_next_block, hm]

/-- C3 counterexample: with `max_retries = 2` (and `k = 0` irrelevant
messages) the waiter gives up after the second failing block and returns
Err after a single retry, never reaching the third block — even though the
third block passes the filter — because a retry is only granted while
`retries_left > 1`.  This refutes the claim for `max_retries = 2`. -/
theorem C3_counterexample_two_retries :
    wait_for_next_block 2 (cpFilter 3) PyVal.none
        [blockMsg 1, blockMsg 2, blockMsg 3] 2
      = (.err (waitFailMsg 2), 1)
    ∧ cpFilter 3 (blockPayload 3) PyVal.none = .ok (blockPayload 3) :=
  ⟨rfl, rfl⟩

/-- C3 (amended): for every `max_retries ≥ 3`, a stream of `k` irrelevant
messages, then two blocks failing the filter, then one block passing it
makes the waiter return the filter's Ok on the third block after exactly
2 retries (irrelevant messages consume no retries). -/
theorem C3_amended_wait_three_blocks
    (noise : List PyVal) (b₁ b₂ b₃ p₁ p₂ p₃ cp₁ cp₂ cp₃ prev v₃ : PyVal)
    (filt : PyVal → PyVal → PResult PyVal String) (r₁ r₂ : String) (maxR : Nat)
    (hnoise : ∀ m ∈ noise, classifyMsg m = .ok .noise)
    (h₁ : classifyMsg b₁ = .ok (.announcement p₁ cp₁))
    (h₂ : classifyMsg b₂ = .ok (.announcement p₂ cp₂))
    (h₃ : classifyMsg b₃ = .ok (.announcement p₃ cp₃))
    (hf₁ : filt p₁ prev = .err r₁)
    (hf₂ : filt p₂ prev = .err r₂)
    (hf₃ : filt p₃ prev = .ok v₃)
    (hm : 3 ≤ maxR) :
    wait_for_next_block maxR filt prev (noise ++ [b₁, b₂, b₃]) maxR
      = (.ok v₃, 2) := by
  induction noise with
  | nil =>
    have ha : 1 < maxR := by omega
    have hb : 1 < maxR - 1 := by omega
    simp [wait_for_next_block, h₁, h₂, h₃, hf₁, hf₂, hf₃, ha, hb]
  | cons m ms ih =>
    rw [List.cons_append, wait_noise_resets maxR filt prev m (ms ++ [b₁, b₂, b₃])
      maxR (hnoise m (List.mem_cons_self m ms))]
    exact ih (fun m' hm' => hnoise m' (List.mem_cons_of_mem m hm'))

/-- Witness for C3 (amended): one noise message, blocks with checkpoints
1, 2, 3 against a filter passing checkpoints ≥ 3 and `max_retries = 3`:
the waiter returns the third block's payload after exactly 2 retries. -/
theorem C3_amended_witness :
    wait_for_next_block 3 (cpFilter 3) PyVal.none
        ([noiseMsg] ++ [blockMsg 1, blockMsg 2, blockMsg 3]) 3
      = (.ok (blockPayload 3), 2) :=
  C3_amended_wait_three_blocks [noiseMsg] (blockMsg 1) (blockMsg 2) (blockMsg 3)
    (blockPayload 1) (blockPayload 2) (blockPayload 3)
    (.int 1) (.int 2) (.int 3) PyVal.none (blockPayload 3) (cpFilter 3)
    "checkpoint too low" "checkpoint too low" 3
    (fun m hm => by rw [List.mem_singleton] at hm; subst hm; rfl)
    rfl rfl rfl rfl rfl rfl (by omega)

/-- C4 counterexample: with `max_retries = 5` and the budget already down
to 2 retries left, an irrelevant message resets the budget to 5: the run
that contains the noise message survives three more failing blocks and
succeeds, while the same stream *without consuming any budget on the
noise* (continuing directly with 2 retries left, as the claim asserts)
exhausts the budget and fails.  The budget after the irrelevant message is
therefore not the budget before it. -/
theorem C4_counterexample_budget_reset :
    wait_for_next_block 5 (cpFilter 3) PyVal.none
        (noiseMsg :: [blockMsg 1, blockMsg 1, blockMsg 1, blockMsg 3]) 2
      = (.ok (blockPayload 3), 3)
    ∧ wait_for_next_block 5 (cpFilter 3) PyVal.none
        [blockMsg 1, blockMsg 1, blockMsg 1, blockMsg 3] 2
      = (.err (waitFailMsg 5), 1) :=
  ⟨rfl, rfl⟩

/-- C4 (amended): processing an irrelevant (non-block) message makes the
machine go back to reading the stream with the retry budget *reset to
`max_retries`* (the recursion goes through the default argument), for
every current value of the budget; the budget is unchanged only when it
was already full. -/
theorem C4_amended_noise_resets_budget (maxR : Nat)
    (filt : PyVal → PyVal → PResult PyVal String) (prev m : PyVal)
    (rest : List PyVal) (rl : Nat)
    (hm : classifyMsg m = .ok Classified.noise) :
    wait_for_next_block maxR filt prev (m :: rest) rl
      = wait_for_next_block maxR filt prev rest maxR :=
  wait_noise_resets maxR filt prev m rest rl hm

/-- Witness for C4 (amended): a concrete noise message at budget 2 under
`max_retries = 5` continues as a fresh run at budget 5. -/
theorem C4_amended_witness :
    wait_for_next_block 5 (cpFilter 3) PyVal.none (noiseMsg :: [blockMsg 3]) 2
      = wait_for_next_block 5 (cpFilter 3) PyVal.none [blockMsg 3] 5 :=
  C4_amended_noise_resets_budget 5 (cpFilter 3) PyVal.none noiseMsg [blockMsg 3] 2 rfl

/-- Reduction of a successful step of an `Except` chain. -/
theorem exceptOkBind {ε α β : Type} (a : α) (f : α → Except ε β) :
    (Except.ok a : Except ε α) >>= f = f a := rfl

/-- Reduction of a failed step of an `Except` chain. -/
theorem exceptErrBind {ε α β : Type} (e : ε) (f : α → Except ε β) :
    (Except.error e : Except ε α) >>= f = Except.error e := rfl

/-- `pure` in the `Except` monad. -/
theorem exceptPure {ε α : Type} (a : α) :
    (pure a : Except ε α) = Except.ok a := rfl

/-- C8: evaluating the four lifecycle predicates at a structurally empty
block and request.  The three predicates guarded by a bare `except:`
convert the missing-field fault into the catch-all diagnostic Err, but
`block_contains_commitments_for_dr` only catches `ValueError` (its
`else:` clause is dead code), so the `KeyError` raised by
`block['block_header']` escapes to the caller — contradicting the claimed
totality of all four predicates. -/
theorem C8_commitments_exception_escapes :
    block_contains_commitments_for_dr (.dict []) (.dict [])
        = .error (.keyError "block_header")
      ∧ block_contains_dr (.dict []) (.dict [])
        = .err (unknownErrMsg (.dict []) (.dict []))
      ∧ block_contains_reveals_for_dr (.dict []) (.dict [])
        = .err (unknownErrMsg (.dict []) (.dict []))
      ∧ block_contains_tally_for_dr (.dict []) (.dict [])
        = .err (unknownErrMsg (.dict []) (.dict [])) :=
  ⟨rfl, rfl, rfl, rfl⟩

/-- C9 counterexample: with an empty commit collection and
`request.witnesses = 0` the count (0) *is* ≥ witnesses (0), yet the
predicate fails with "there are no commitments inside": the succeeds-iff
claim is false at this input because the emptiness check precedes the
quorum comparison. -/
theorem C9_counterexample_zero_witnesses :
    block_contains_commitments_for_dr (commitBlock []) (witnessRequest 0)
      = .ok (.err "there are no commitments inside")
    ∧ (0 : Int) ≤ ((([] : List PyVal).length : Nat) : Int) :=
  ⟨rfl, by norm_num⟩

/-- C9 (amended): for every well-formed block and request, the
commitment-quorum predicate succeeds iff the block contains *at least one*
commit transaction and the number of commit transactions is ≥ the
request's witnesses field (commits are not filtered by which data request
they target); with witnesses = 3 and 2 commit transactions it returns Err
citing "2 < 3", and with 3 or more it returns Ok. -/
theorem C9_amended_commitment_quorum (block request : PyVal)
    (header beacon cp txns params dro : PyVal) (cs : List PyVal) (w : Int)
    (hbh : block.pyGetItem "block_header" = .ok header)
    (hbe : header.pyGetItem "beacon" = .ok beacon)
    (hcp : beacon.pyGetItem "checkpoint" = .ok cp)
    (htx : block.pyGetItem "txns" = .ok txns)
    (hct : txns.pyGetItem "commit_txns" = .ok (.list cs))
    (hp : request.pyGetItem "params" = .ok params)
    (hd : params.pyGetItem "dro" = .ok dro)
    (hwit : dro.pyGetItem "witnesses" = .ok (.int w)) :
    (block_contains_commitments_for_dr block request = .ok (.ok block)
        ↔ (0 < cs.length ∧ w ≤ (cs.length : Int)))
      ∧ block_contains_commitments_for_dr (commitBlock [commitTx, commitTx])
          (witnessRequest 3)
          = .ok (.err "there are not enough commitments (2 < 3)")
      ∧ block_contains_commitments_for_dr
          (commitBlock [commitTx, commitTx, commitTx]) (witnessRequest 3)
          = .ok (.ok (commitBlock [commitTx, commitTx, commitTx])) := by
  refine ⟨?_, rfl, rfl⟩
  by_cases hlen : 0 < cs.length
  · by_cases hge : w ≤ (cs.length : Int)
    · have hres : block_contains_commitments_for_dr block request = .ok (.ok block) := by
        simp [block_contains_commitments_for_dr, block_contains_commitments_for_dr_body,
          exceptOkBind, exceptPure, hbh, hbe, hcp, htx, hct, hp, hd, hwit, PyVal.pyLen,
          PyVal.pyIter, PyVal.pyGe, hlen, hge]
      simp [hres, hlen, hge]
    · have hres : block_contains_commitments_for_dr block request
          = .ok (.err ("there are not enough commitments (" ++ toString cs.length
              ++ " < " ++ (PyVal.int w).pyStr ++ ")")) := by
        simp [block_contains_commitments_for_dr, block_contains_commitments_for_dr_body,
          exceptOkBind, exceptPure, hbh, hbe, hcp, htx, hct, hp, hd, hwit, PyVal.pyLen,
          PyVal.pyIter, PyVal.pyGe, hlen, hge]
      simp [hres, hge]
  · have hres : block_contains_commitments_for_dr block request
        = .ok (.err "there are no commitments inside") := by
      simp [block_contains_commitments_for_dr, block_contains_commitments_for_dr_body,
        exceptOkBind, exceptPure, hbh, hbe, hcp, htx, hct, hp, hd, hwit, PyVal.pyLen,
        PyVal.pyIter, hlen]
    simp [hres, hlen]

/-- Witness for C9 (amended): one commit transaction against
`witnesses = 1` satisfies the quorum. -/
theorem C9_amended_witness :
    (block_contains_commitments_for_dr (commitBlock [commitTx]) (witnessRequest 1)
        = .ok (.ok (commitBlock [commitTx]))
      ↔ (0 < ([commitTx] : List PyVal).length
          ∧ (1 : Int) ≤ ((([commitTx] : List PyVal).length : Nat) : Int)))
      ∧ block_contains_commitments_for_dr (commitBlock [commitTx, commitTx])
          (witnessRequest 3)
          = .ok (.err "there are not enough commitments (2 < 3)")
      ∧ block_contains_commitments_for_dr
          (commitBlock [commitTx, commitTx, commitTx]) (witnessRequest 3)
          = .ok (.ok (commitBlock [commitTx, commitTx, commitTx])) :=
  C9_amended_commitment_quorum (commitBlock [commitTx]) (witnessRequest 1)
    (.dict [("beacon", .dict [("checkpoint", .int 7)])])
    (.dict [("checkpoint", .int 7)]) (.int 7)
    (.dict [("commit_txns", .list [commitTx])])
    (.dict [("dro", .dict [("witnesses", .int 1)])])
    (.dict [("witnesses", .int 1)]) [commitTx] 1
    rfl rfl rfl rfl rfl rfl rfl rfl

end WitnetTester
